import Mathlib

/-
Verification of the transcriptor-app core: the batch pipeline executor
(core/pipeline.py, function run_pipeline), the background-job worker and
status sink (interfaces/web/processing.py, run_transcription_job_in_background,
update_status, start_job), and the job endpoints (interfaces/web/main.py).

The Python code is shallowly embedded: dictionaries become structures with
Option-valued fields where a key may be absent, the shared jobs dictionary
becomes a function from job id to Option JobRecord, external collaborators
(downloader, transcriber, formatters, the file system, os.remove) become
oracle values describing the outcome of each call, and a Python exception
becomes an Except error value that the embedding propagates to the nearest
enclosing handler exactly where the source has a try block.
-/

namespace Transcriptor

/-- Job status strings of interfaces/web/main.py and processing.py
(STATUS_PENDING .. STATUS_CANCELLED). -/
inductive Status where
  | pending
  | processing
  | downloading
  | transcribing
  | formatting
  | completed
  | failed
  | cancelling
  | cancelled
deriving DecidableEq

/-- The Python string value of a status constant (used inside f-string
error details of the endpoints). -/
def Status.pyName : Status → String
  | .pending => "pending"
  | .processing => "processing"
  | .downloading => "downloading"
  | .transcribing => "transcribing"
  | .formatting => "formatting"
  | .completed => "completed"
  | .failed => "failed"
  | .cancelling => "cancelling"
  | .cancelled => "cancelled"

/-- Terminal states per the spec: completed, failed, cancelled. -/
def Status.isTerminal : Status → Bool
  | .completed => true
  | .failed => true
  | .cancelled => true
  | _ => false

/-- The pipeline configuration dictionary passed to run_pipeline.  Every
field is Option-valued because the Python code reads the dict with
config.get(key, default): a missing key yields the default.  The float
temperature is modelled as a rational; it is only ever passed through. -/
structure PipelineConfig where
  model : Option String
  formats : Option (List String)
  audio_format : Option String
  output_filename_template : Option String
  language : Option String
  prompt : Option String
  temperature : Option Rat
  speaker_labels : Option Bool
  keep_audio : Option Bool
deriving DecidableEq

/-- A configuration dictionary with no keys set: run_pipeline then uses its
internal defaults (formats txt+srt, keep_audio false, ...). -/
def emptyConfig : PipelineConfig :=
  { model := none
    formats := none
    audio_format := none
    output_filename_template := none
    language := none
    prompt := none
    temperature := none
    speaker_labels := none
    keep_audio := none }

/-- Python truthiness of the config dictionary: falsy iff it is the empty
dict.  The embedding flattens a key stored with value None and an absent
key to the same none, so the all-none configuration (emptyConfig) is this
model's empty dict. -/
def PipelineConfig.isFalsy (c : PipelineConfig) : Bool := decide (c = emptyConfig)

/-- The configuration dictionary a web submission stores: the
JobConfigRequest defaults of interfaces/web/main.py lines 60-70 dumped to
a dict, plus the output_filename_template added by the submit endpoint at
line 102 — never an empty dict. -/
def webDefaultConfig : PipelineConfig :=
  { model := some "whisper-1"
    formats := some ["txt", "srt"]
    audio_format := some "mp3"
    output_filename_template := some "%(title)s [%(id)s]"
    language := none
    prompt := none
    temperature := some 0
    speaker_labels := some false
    keep_audio := some false }

/-- One timed segment of a transcript (contract of the transcription
client, spec section 6).  The source field name end is a Lean keyword and
is rendered stop. -/
structure Segment where
  start : Rat
  stop : Rat
  text : String
  speaker : Option String
deriving DecidableEq

/-- The structured transcript returned by transcribe_audio_lemonfox. -/
structure Transcript where
  text : String
  segments : List Segment
deriving DecidableEq

/-- One record of the shared jobs dictionary (created in start_job,
interfaces/web/processing.py lines 192-201).  Keys that the dict may lack
until some assignment runs (error, output_dir, processed_count,
failed_urls) are Option-valued; failed_urls the worker would store is the
field failed_urls_field to avoid clashing with the pipeline result name. -/
structure JobRecord where
  status : Status
  cancelled : Bool
  error : Option String
  output_dir : Option String
  files : List String
  processed_count : Option Nat
  failed_urls_field : Option (List String)
  original_urls : List String
  original_config : PipelineConfig
  submitted_at : Nat
deriving DecidableEq

/-- update_status, the status-sink closure of
run_transcription_job_in_background (interfaces/web/processing.py lines
55-74).  The record is Option-valued because the closure guards every
access with job_id in jobs_dict; the get of the cancelled flag defaults to
false when the record is missing.  Faithfully: (1) if the new status is
not CANCELLED and the cancelled flag reads true, store CANCELLED instead;
(2) otherwise, if the current status is CANCELLED and the new one is not,
ignore the update; (3) otherwise store the new status. -/
def update_status (rec : Option JobRecord) (new_status : Status) : Option JobRecord :=
  if new_status ≠ Status.cancelled ∧ (rec.map JobRecord.cancelled).getD false then
    rec.map (fun r => { r with status := Status.cancelled })
  else
    match rec with
    | some r =>
      if r.status = Status.cancelled ∧ new_status ≠ Status.cancelled then
        some r
      else
        some { r with status := new_status }
    | none => none

/-- Outcome of one call to an external collaborator that in Python either
returns a useful value, returns a falsy value (None), or raises. -/
inductive Call (α : Type) where
  | ok (val : α)
  | failure
  | exn (msg : String)
deriving DecidableEq

/-- Outcome of the filename-metadata extraction block (core/pipeline.py
lines 129-158): it either produces a base filename (extract_info followed
by prepare_filename and splitext), or raises; the surrounding try catches
the raise and falls back to the literal stem. -/
inductive ExtractOutcome where
  | ok (base : String)
  | exn (msg : String)
deriving DecidableEq

/-- Outcome of one generate_txt / generate_srt call: returned True,
returned False, or raised (the raise is caught by the per-format handler
at core/pipeline.py line 181). -/
inductive FmtOutcome where
  | success
  | failure
  | exn (msg : String)
deriving DecidableEq

/-- The behaviour of every external call made while processing one URL of
the batch.  fmtResult j is the outcome of the j-th format-generation
attempt; removeOk says whether os.remove in the cleanup block succeeds
(false models the OSError caught at core/pipeline.py line 218). -/
structure UrlEnv where
  download : Call String
  transcribe : Call Transcript
  extractBase : ExtractOutcome
  fmtResult : Nat → FmtOutcome
  removeOk : Bool

/-- A file system modelled as the set of existing regular files. -/
def fsSet (fs : String → Bool) (p : String) (v : Bool) : String → Bool :=
  fun q => if q = p then v else fs q

/-- Bool substring test on character lists, structural in the haystack. -/
def hasSubList (needle : List Char) : List Char → Bool
  | [] => List.isPrefixOf needle []
  | c :: t => List.isPrefixOf needle (c :: t) || hasSubList needle t

/-- Python needle in haystack for strings. -/
def strHasSub (needle hay : String) : Bool := hasSubList needle.toList hay.toList

/-- Python s.startswith(pre). -/
def strStarts (s pre : String) : Bool := List.isPrefixOf pre.toList s.toList

/-- Python s.endswith(suf). -/
def strEnds (s suf : String) : Bool := List.isSuffixOf suf.toList s.toList

/-- Python os.path.join for two components (the only shape the embedded
code uses): an absolute second component replaces the first, otherwise a
slash is inserted unless one is already there or the first part is empty. -/
def os_path_join (a b : String) : String :=
  if strStarts b "/" = true then b
  else if a = "" then b
  else if strEnds a "/" = true then a ++ b
  else a ++ "/" ++ b

/-- The mutable state of the batch loop of run_pipeline:
processed_urls_count, failed_urls_list, and the file system the
collaborator calls act on. -/
structure PipeState where
  processed_count : Nat
  failed_urls : List String
  fs : String → Bool

/-- The state core/pipeline.py starts from (lines 58-59). -/
def pipeInit (fs0 : String → Bool) : PipeState :=
  { processed_count := 0, failed_urls := [], fs := fs0 }

/-- The format loop of core/pipeline.py lines 166-182: for each requested
format, generate_txt or generate_srt runs when the format is txt or srt
(on success it writes output_base_path.fmt and the counter increments);
for any other format name success stays False; a raise from a generator is
caught by the inner handler with no count.  The accumulator carries
(format_success_count, file system). -/
def formatLoop (fr : Nat → FmtOutcome) (output_base_path : String) :
    List String → Nat → Nat × (String → Bool) → Nat × (String → Bool)
  | [], _, acc => acc
  | fmt :: rest, j, acc =>
    formatLoop fr output_base_path rest (j + 1)
      (if fmt = "txt" ∨ fmt = "srt" then
        match fr j with
        | FmtOutcome.success => (acc.1 + 1, fsSet acc.2 (output_base_path ++ "." ++ fmt) true)
        | FmtOutcome.failure => acc
        | FmtOutcome.exn _ => acc
      else acc)

/-- What the locals look like when an exception escapes the per-URL try
block of run_pipeline and reaches the handler at core/pipeline.py line
198: the file system at raise time, the audio_path local, and the
exception message. -/
structure UrlRaise where
  fs : String → Bool
  audio_path : Option String
  msg : String

/-- How the per-URL try block ended when no exception escaped it. -/
inductive StageOutcome where
  | downloadFailed
  | transcribeFailed
  | formatsDone (succ : Nat) (total : Nat)

/-- Result of the per-URL try block when it runs to a continue or falls
through to the end (core/pipeline.py lines 80-196 up to, but excluding,
the counting of url_success which stepUrl performs). -/
structure UrlOk where
  fs : String → Bool
  audio_path : Option String
  outcome : StageOutcome

/-- The body of the per-URL try block of run_pipeline (core/pipeline.py
lines 80-193): download (on success the fetcher leaves the asset on disk,
spec section 6 contract), transcription, filename resolution with its
local fallback to the stem transcript, and the format loop.  An Except
error is an exception escaping to the URL-boundary handler. -/
def urlBodyE (cfg : PipelineConfig) (output_dir : String) (env : UrlEnv)
    (fs0 : String → Bool) : Except UrlRaise UrlOk :=
  match env.download with
  | Call.exn m => Except.error { fs := fs0, audio_path := none, msg := m }
  | Call.failure => Except.ok { fs := fs0, audio_path := none, outcome := StageOutcome.downloadFailed }
  | Call.ok audio_path =>
    let fs1 := fsSet fs0 audio_path true
    match env.transcribe with
    | Call.exn m => Except.error { fs := fs1, audio_path := some audio_path, msg := m }
    | Call.failure =>
      Except.ok { fs := fs1, audio_path := some audio_path, outcome := StageOutcome.transcribeFailed }
    | Call.ok _transcript =>
      let base_filename :=
        match env.extractBase with
        | ExtractOutcome.ok b => b
        | ExtractOutcome.exn _ => "transcript"
      let output_base_path := os_path_join output_dir base_filename
      let requested_formats := cfg.formats.getD ["txt", "srt"]
      let res := formatLoop env.fmtResult output_base_path requested_formats 0 (0, fs1)
      Except.ok { fs := res.2, audio_path := some audio_path,
                  outcome := StageOutcome.formatsDone res.1 requested_formats.length }

/-- The finally block of core/pipeline.py lines 202-221: when an audio
path was produced (and is truthy, i.e. non-empty), the file still exists,
and keep_audio is off, os.remove it; an OSError from os.remove is caught
and leaves the file in place.  The rmdir of the audio directory cannot
change whether any regular file exists and is not tracked. -/
def cleanupStep (cfg : PipelineConfig) (env : UrlEnv) (audio_path : Option String)
    (fs : String → Bool) : String → Bool :=
  match audio_path with
  | none => fs
  | some p =>
    if p ≠ "" ∧ fs p = true ∧ cfg.keep_audio.getD false = false then
      if env.removeOk then fsSet fs p false else fs
    else fs

/-- How the batch loop folds the outcome of one URL into its state
(core/pipeline.py lines 91-94, 118-121, 184-196, 198-201, and the finally
202-221): a boundary exception appends the URL unless already listed; a
download or transcription failure appends unconditionally; the format tally
counts the URL processed when every or at least one format succeeded,
otherwise appends unless already listed; cleanup always runs. -/
def processOutcome (cfg : PipelineConfig) (env : UrlEnv) (current_url : String)
    (st : PipeState) : Except UrlRaise UrlOk → PipeState
  | Except.error r =>
    { processed_count := st.processed_count
      failed_urls :=
        if current_url ∈ st.failed_urls then st.failed_urls
        else st.failed_urls ++ [current_url]
      fs := cleanupStep cfg env r.audio_path r.fs }
  | Except.ok b =>
    let fs1 := cleanupStep cfg env b.audio_path b.fs
    match b.outcome with
    | StageOutcome.downloadFailed =>
      { processed_count := st.processed_count
        failed_urls := st.failed_urls ++ [current_url]
        fs := fs1 }
    | StageOutcome.transcribeFailed =>
      { processed_count := st.processed_count
        failed_urls := st.failed_urls ++ [current_url]
        fs := fs1 }
    | StageOutcome.formatsDone succ total =>
      if succ = total ∨ 0 < succ then
        { processed_count := st.processed_count + 1
          failed_urls := st.failed_urls
          fs := fs1 }
      else
        { processed_count := st.processed_count
          failed_urls :=
            if current_url ∈ st.failed_urls then st.failed_urls
            else st.failed_urls ++ [current_url]
          fs := fs1 }

/-- One iteration of the batch loop of run_pipeline for one URL. -/
def stepUrl (cfg : PipelineConfig) (output_dir : String) (env : UrlEnv)
    (current_url : String) (st : PipeState) : PipeState :=
  processOutcome cfg env current_url st (urlBodyE cfg output_dir env st.fs)

/-- The batch loop of run_pipeline (core/pipeline.py line 74): URLs are
processed strictly in order; envs gives the collaborator behaviour of the
iteration with that index. -/
def runUrls (cfg : PipelineConfig) (output_dir : String) (envs : Nat → UrlEnv) :
    List String → Nat → PipeState → PipeState
  | [], _, st => st
  | current_url :: rest, index, st =>
    runUrls cfg output_dir envs rest (index + 1)
      (stepUrl cfg output_dir (envs index) current_url st)

/-- run_pipeline of core/pipeline.py: runs the batch loop from the empty
counters over the given file system and returns the final loop state,
whose processed_count and failed_urls components are the returned result
dictionary (lines 227-230). -/
def run_pipeline (urls_to_process : List String) (cfg : PipelineConfig)
    (output_dir : String) (envs : Nat → UrlEnv) (fs0 : String → Bool) : PipeState :=
  runUrls cfg output_dir envs urls_to_process 0 (pipeInit fs0)

/-- The result dictionary returned by run_pipeline, as consumed by the
background worker. -/
structure PipelineResultDict where
  processed_count : Nat
  failed_urls : List String
deriving DecidableEq

deriving instance DecidableEq for Except

/-- Projection of the final loop state onto the returned dictionary of
core/pipeline.py lines 227-230. -/
def PipeState.toResultDict (st : PipeState) : PipelineResultDict :=
  { processed_count := st.processed_count, failed_urls := st.failed_urls }

/-- True when the per-URL body ended by the download-failure continue. -/
def bodyIsDownloadFailed : Except UrlRaise UrlOk → Bool
  | Except.ok b =>
    match b.outcome with
    | StageOutcome.downloadFailed => true
    | _ => false
  | Except.error _ => false

/-- True when the per-URL body ended by the transcription-failure continue. -/
def bodyIsTranscribeFailed : Except UrlRaise UrlOk → Bool
  | Except.ok b =>
    match b.outcome with
    | StageOutcome.transcribeFailed => true
    | _ => false
  | Except.error _ => false

/-- Environment of one background worker run
(run_transcription_job_in_background).  flag i is the value of the shared
record's cancelled field at the worker's i-th read of it — the field is
written concurrently by the cancel endpoint and only ever from false to
true, so a run observes a monotone boolean sequence.  mkdirError is the
exception message when os.makedirs raises (none when it succeeds);
pipelineOutcome is what the run_pipeline call does: raise, or return a
result dictionary; listFiles is what os.listdir finds in the job output
directory when the worker lists produced files. -/
structure WorkerEnv where
  flag : Nat → Bool
  hasApiKey : Bool
  mkdirError : Option String
  pipelineOutcome : Except String PipelineResultDict
  listFiles : List String
  job_output_dir : String

/-- Whether the worker thread function returned normally or died on an
uncaught exception. -/
inductive WorkerExit where
  | normal
  | raised (msg : String)
deriving DecidableEq

/-- The job record as the worker leaves it, together with how the thread
function exited. -/
structure WorkerResult where
  record : JobRecord
  exit : WorkerExit

/-- run_transcription_job_in_background (interfaces/web/processing.py
lines 43-180), for a job whose record exists throughout.  Worker reads of
the shared cancelled flag are numbered in program order: read 0 is the
pre-start checkpoint (line 77); read 1 is, per path, the flag read inside
update_status(FAILED) on the missing-API-key path (line 105) or on the
makedirs-exception path (line 145), or the pre-pipeline checkpoint (line
124); read 2 is the update_status read after a pipeline raise (line 145)
or the post-pipeline checkpoint (line 149); read 3 is the update_status
read of the final completed/failed transition.  Each update_status call on
the cancellation branches passes a record refreshed with the flag read of
its checkpoint; the flag value is irrelevant there because the new status
is CANCELLED.  On the final failure branch (pipeline result with non-empty
failed_urls) the source calls .keys() on the failed_urls list (line 172),
which raises AttributeError inside the try-else block where no handler is
active: the thread dies after the FAILED transition and before any of
error, processed_count, failed_urls or files is stored. -/
def run_transcription_job_in_background (env : WorkerEnv) (r0 : JobRecord) : WorkerResult :=
  let rA := { r0 with cancelled := env.flag 0 }
  if rA.cancelled then
    { record := (update_status (some rA) Status.cancelled).getD rA, exit := WorkerExit.normal }
  else if env.hasApiKey = false then
    let rB := { rA with cancelled := env.flag 1 }
    let rB2 := (update_status (some rB) Status.failed).getD rB
    { record := { rB2 with error := some "API key not configured." }, exit := WorkerExit.normal }
  else
    match env.mkdirError with
    | some m =>
      let rB := { rA with cancelled := env.flag 1 }
      let rB2 := (update_status (some rB) Status.failed).getD rB
      { record := { rB2 with error := some ("An unexpected error occurred: " ++ m) }
        exit := WorkerExit.normal }
    | none =>
      let rB := { rA with output_dir := some env.job_output_dir }
      let rC := { rB with cancelled := env.flag 1 }
      if rC.cancelled then
        { record := (update_status (some rC) Status.cancelled).getD rC, exit := WorkerExit.normal }
      else
        match env.pipelineOutcome with
        | Except.error m =>
          let rD := { rC with cancelled := env.flag 2 }
          let rD2 := (update_status (some rD) Status.failed).getD rD
          { record := { rD2 with error := some ("An unexpected error occurred: " ++ m) }
            exit := WorkerExit.normal }
        | Except.ok results =>
          let rD := { rC with cancelled := env.flag 2 }
          if rD.cancelled then
            let rE := (update_status (some rD) Status.cancelled).getD rD
            { record := { rE with files := env.listFiles }, exit := WorkerExit.normal }
          else
            if results.failed_urls.isEmpty then
              let rE := { rD with cancelled := env.flag 3 }
              let rE2 := (update_status (some rE) Status.completed).getD rE
              { record := { rE2 with processed_count := some results.processed_count
                                     files := env.listFiles }
                exit := WorkerExit.normal }
            else
              let rE := { rD with cancelled := env.flag 3 }
              let rE2 := (update_status (some rE) Status.failed).getD rE
              { record := rE2
                exit := WorkerExit.raised "AttributeError: list object has no attribute keys" }

/-- The shared jobs dictionary of interfaces/web/main.py line 44, as a map
from job id to record. -/
def JobStore := String → Option JobRecord

/-- The record start_job inserts (interfaces/web/processing.py lines
192-201): pending status, cleared cancellation flag, the original request
retained verbatim, and no output yet. -/
def initialRecord (urls : List String) (config : PipelineConfig) (now : Nat) : JobRecord :=
  { status := Status.pending
    cancelled := false
    error := none
    output_dir := none
    files := []
    processed_count := none
    failed_urls_field := none
    original_urls := urls
    original_config := config
    submitted_at := now }

/-- start_job (interfaces/web/processing.py lines 183-213): insert a fresh
record under the new uuid and return the id.  The uuid draw and the clock
are parameters (job_id, now); the background thread it spawns is modelled
separately by run_transcription_job_in_background. -/
def start_job (urls : List String) (config : PipelineConfig) (jobs : JobStore)
    (job_id : String) (now : Nat) : JobStore × String :=
  (fun k => if k = job_id then some (initialRecord urls config now) else jobs k, job_id)

/-- HTTP error responses raised by the endpoints of
interfaces/web/main.py (HTTPException with status 404, 400 or 500). -/
inductive HttpError where
  | notFound (detail : String)
  | badRequest (detail : String)
  | serverError (detail : String)
deriving DecidableEq

/-- The JSON body of a successful /result/job_id response
(interfaces/web/main.py lines 154-163). -/
structure ResultResponse where
  job_id : String
  status : Status
  error : Option String
  output_dir : Option String
  files : List String
  processed_count : Option Nat
  failed_urls : List String
deriving DecidableEq

/-- get_job_result_endpoint (interfaces/web/main.py lines 137-165):
404 when the job id is unknown; 400 when the status is neither completed
nor failed; otherwise the stored result data. -/
def get_job_result_endpoint (job_id : String) (job : Option JobRecord) :
    Except HttpError ResultResponse :=
  match job with
  | none => Except.error (HttpError.notFound "Job not found")
  | some r =>
    if r.status ≠ Status.completed ∧ r.status ≠ Status.failed then
      Except.error (HttpError.badRequest
        ("Job is still in progress (status: " ++ r.status.pyName ++ ")."))
    else
      Except.ok
        { job_id := job_id
          status := r.status
          error := r.error
          output_dir := r.output_dir
          files := r.files
          processed_count := r.processed_count
          failed_urls := r.failed_urls_field.getD [] }

/-- download_file_endpoint (interfaces/web/main.py lines 168-195):
404 for an unknown job; 404 when the record has no (or an empty, hence
falsy) output_dir; 400 when the filename contains a dotdot sequence or
starts with a slash; then the file at os.path.join(output_dir, filename)
is served iff os.path.isfile accepts it, else 404.  The final check that
the filename is listed in the job's files only logs and denies nothing
(lines 189-192), so it does not appear here. -/
def download_file_endpoint (jobs : JobStore) (isfile : String → Bool)
    (job_id : String) (filename : String) : Except HttpError String :=
  match jobs job_id with
  | none => Except.error (HttpError.notFound "Job not found")
  | some r =>
    if r.output_dir = none ∨ r.output_dir = some "" then
      Except.error (HttpError.notFound "Job output directory not found.")
    else
      let output_dir := r.output_dir.getD ""
      if strHasSub ".." filename = true ∨ strStarts filename "/" = true then
        Except.error (HttpError.badRequest "Invalid filename.")
      else
        let file_path := os_path_join output_dir filename
        if isfile file_path = false then
          Except.error (HttpError.notFound "File not found.")
        else
          Except.ok file_path

/-- retry_job_endpoint (interfaces/web/main.py lines 230-264): 404 when
the id is unknown; 400 when the record's status is not failed; 500 when
the stored original_urls list is falsy (empty) or the stored
original_config dict is falsy (empty), mirroring the line-247 guard
if not original_urls or not original_config; otherwise a new job is
started from the original request and the new id returned. -/
def retry_job_endpoint (jobs : JobStore) (job_id : String) (fresh_id : String)
    (now : Nat) : Except HttpError (JobStore × String) :=
  match jobs job_id with
  | none => Except.error (HttpError.notFound "Original job not found")
  | some r =>
    if r.status ≠ Status.failed then
      Except.error (HttpError.badRequest "Only failed jobs can be retried.")
    else if r.original_urls.isEmpty || r.original_config.isFalsy then
      Except.error (HttpError.serverError "Cannot retry job: Internal data missing.")
    else
      Except.ok (start_job r.original_urls r.original_config jobs fresh_id now)

/-- A concrete transcript for sample runs. -/
def sampleTranscript : Transcript := { text := "hi", segments := [] }

/-- Collaborator behaviour where the download returns None. -/
def envDlFail : UrlEnv :=
  { download := Call.failure
    transcribe := Call.failure
    extractBase := ExtractOutcome.ok "base"
    fmtResult := fun _ => FmtOutcome.failure
    removeOk := true }

/-- Collaborator behaviour where the download raises. -/
def envDlExn : UrlEnv :=
  { download := Call.exn "crash"
    transcribe := Call.failure
    extractBase := ExtractOutcome.ok "base"
    fmtResult := fun _ => FmtOutcome.failure
    removeOk := true }

/-- Collaborator behaviour where download and transcription succeed but
every format generator returns False. -/
def envFmtAllFail : UrlEnv :=
  { download := Call.ok "a.mp3"
    transcribe := Call.ok sampleTranscript
    extractBase := ExtractOutcome.ok "base"
    fmtResult := fun _ => FmtOutcome.failure
    removeOk := true }

/-- Collaborator behaviour where download and transcription succeed, the
txt generator succeeds and the srt generator raises. -/
def envTxtOkSrtExn : UrlEnv :=
  { download := Call.ok "a.mp3"
    transcribe := Call.ok sampleTranscript
    extractBase := ExtractOutcome.ok "base"
    fmtResult := fun j => if j = 0 then FmtOutcome.success else FmtOutcome.exn "boom"
    removeOk := true }

/-- State after the first iteration of the duplicate-URL batch of the C2
counterexample: the URL fails at the download stage. -/
def c2_st1 : PipeState := stepUrl emptyConfig "out" envDlFail "u" (pipeInit (fun _ => false))

/-- State after the second iteration: the same URL now reaches the format
stage and zero formats succeed. -/
def c2_st2 : PipeState := stepUrl emptyConfig "out" envFmtAllFail "u" c2_st1

/-- The iteration environments of the C2 counterexample batch. -/
def c2_envs : Nat → UrlEnv := fun i => if i = 0 then envDlFail else envFmtAllFail

/-- A completed job record whose cancel flag is clear (C1 counterexample). -/
def c1_record : JobRecord :=
  { status := Status.completed
    cancelled := false
    error := none
    output_dir := some "outdir"
    files := ["a.txt"]
    processed_count := some 1
    failed_urls_field := none
    original_urls := ["u"]
    original_config := emptyConfig
    submitted_at := 0 }

/-- A cancelled job record (C1 amended witness). -/
def c1_cancelled_record : JobRecord :=
  { c1_record with status := Status.cancelled }

/-- Worker environment of the C3 evaluation: no cancellation, API key
present, directories created, and the pipeline executor run on a
one-URL batch whose download fails, so its result has a non-empty
failed_urls list. -/
def c3_env : WorkerEnv :=
  { flag := fun _ => false
    hasApiKey := true
    mkdirError := none
    pipelineOutcome :=
      Except.ok ((run_pipeline ["u"] emptyConfig "out" (fun _ => envDlFail)
        (fun _ => false)).toResultDict)
    listFiles := []
    job_output_dir := "web_outputs/j1" }

/-- Worker environment of the C4 witness: the cancel flag reads true at
every checkpoint and the API key is missing, exercising the
missing-API-key path under a pending cancellation. -/
def c4_env : WorkerEnv :=
  { flag := fun _ => true
    hasApiKey := false
    mkdirError := none
    pipelineOutcome := Except.ok { processed_count := 0, failed_urls := [] }
    listFiles := []
    job_output_dir := "web_outputs/j1" }

/-- The locals reaching the URL-boundary handler when the download raises
over an empty file system (C5 amended witness). -/
def c5w_raise : UrlRaise := { fs := fun _ => false, audio_path := none, msg := "crash" }

/-- A loop state that already lists the URL as failed (C7 amended witness). -/
def c7w_st : PipeState := { processed_count := 0, failed_urls := ["u"], fs := fun _ => false }

/-- A cancelled record: terminal, yet rejected by the result endpoint
(C6 counterexample). -/
def c6_record : JobRecord :=
  { c1_record with status := Status.cancelled, files := [], processed_count := none }

/-- A completed record with result data (C6 amended witness). -/
def c6w_record : JobRecord := c1_record

/-- A failed record retaining its original request — the URL list and the
stored web-submission config dict, which is never empty (C8 witness). -/
def c8_failedRec : JobRecord :=
  { status := Status.failed
    cancelled := false
    error := some "Processing failed"
    output_dir := some "outdir"
    files := []
    processed_count := some 0
    failed_urls_field := some ["u"]
    original_urls := ["u"]
    original_config := webDefaultConfig
    submitted_at := 0 }

/-- A store holding exactly the failed record under id a (C8 witness). -/
def c8_store : JobStore := fun k => if k = "a" then some c8_failedRec else none

/-- A record with a recorded output directory (C10 witness). -/
def c10_rec : JobRecord := { c8_failedRec with output_dir := some "outdir" }

/-- A store holding the C10 record under id j. -/
def c10_store : JobStore := fun k => if k = "j" then some c10_rec else none

/-- A file system where exactly outdir/f.txt is a regular file. -/
def c10_isfile : String → Bool := fun p => p = "outdir/f.txt"

/-- Setting a path true never clears an existing file. -/
theorem fsSet_true_preserves (fs : String → Bool) (p q : String) (h : fs q = true) :
    fsSet fs p true q = true := by
  unfold fsSet
  by_cases hq : q = p <;> simp [hq, h]

/-- The format loop only ever adds files. -/
theorem formatLoop_preserves_true (fr : Nat → FmtOutcome) (bp : String) :
    ∀ (fmts : List String) (j : Nat) (acc : Nat × (String → Bool)) (q : String),
      acc.2 q = true → (formatLoop fr bp fmts j acc).2 q = true := by
  intro fmts
  induction fmts with
  | nil => intro j acc q h; simpa [formatLoop] using h
  | cons fmt rest ih =>
    intro j acc q h
    rw [formatLoop]
    apply ih
    by_cases hf : fmt = "txt" ∨ fmt = "srt"
    · rw [if_pos hf]
      cases hr : fr j
      · exact fsSet_true_preserves acc.2 (bp ++ "." ++ fmt) q h
      · exact h
      · exact h
    · rw [if_neg hf]; exact h

/-- Folding one URL outcome into the loop state never removes an entry
from the failed list. -/
theorem processOutcome_failed_mono (cfg : PipelineConfig) (env : UrlEnv)
    (current_url u : String) (st : PipeState) (e : Except UrlRaise UrlOk)
    (h : u ∈ st.failed_urls) : u ∈ (processOutcome cfg env current_url st e).failed_urls := by
  rcases e with r | b
  · unfold processOutcome
    by_cases hm : current_url ∈ st.failed_urls <;> simp [hm, h]
  · rcases b with ⟨bfs, bap, bout⟩
    rcases bout with _ | _ | ⟨succ, total⟩
    · simpa [processOutcome] using Or.inl h
    · simpa [processOutcome] using Or.inl h
    · unfold processOutcome
      by_cases hc : succ = total ∨ 0 < succ
      · simp [hc, h]
      · by_cases hm : current_url ∈ st.failed_urls <;> simp [hc, hm, h]

/-- One batch-loop iteration never removes an entry from the failed list. -/
theorem stepUrl_failed_mono (cfg : PipelineConfig) (output_dir : String) (env : UrlEnv)
    (current_url u : String) (st : PipeState) (h : u ∈ st.failed_urls) :
    u ∈ (stepUrl cfg output_dir env current_url st).failed_urls :=
  processOutcome_failed_mono cfg env current_url u st _ h

/-- The batch loop never removes an entry from the failed list. -/
theorem runUrls_failed_mono (cfg : PipelineConfig) (output_dir : String) (envs : Nat → UrlEnv)
    (u : String) :
    ∀ (urls : List String) (index : Nat) (st : PipeState), u ∈ st.failed_urls →
      u ∈ (runUrls cfg output_dir envs urls index st).failed_urls := by
  intro urls
  induction urls with
  | nil => intro index st h; simpa [runUrls] using h
  | cons url rest ih =>
    intro index st h
    rw [runUrls]
    exact ih (index + 1) _ (stepUrl_failed_mono cfg output_dir (envs index) url u st h)

/-- Splitting the batch loop at a list split. -/
theorem runUrls_append (cfg : PipelineConfig) (output_dir : String) (envs : Nat → UrlEnv) :
    ∀ (l1 l2 : List String) (index : Nat) (st : PipeState),
      runUrls cfg output_dir envs (l1 ++ l2) index st =
        runUrls cfg output_dir envs l2 (index + l1.length) (runUrls cfg output_dir envs l1 index st) := by
  intro l1
  induction l1 with
  | nil => intro l2 index st; simp [runUrls]
  | cons url rest ih =>
    intro l2 index st
    simp only [List.cons_append, runUrls, List.length_cons, List.append_eq]
    rw [ih]
    congr 1
    omega

/-- Claim C1 (counterexample): a record whose status is the terminal state
completed, with the cancel flag clear, is moved to the non-terminal phase
downloading by a status-sink call: terminal statuses other than cancelled
are not protected by update_status. -/
theorem c1_counterexample :
    c1_record.status = Status.completed ∧
    Status.isTerminal c1_record.status = true ∧
    Status.isTerminal Status.downloading = false ∧
    (update_status (some c1_record) Status.downloading).map JobRecord.status =
      some Status.downloading ∧
    ¬ (update_status (some c1_record) Status.downloading).map JobRecord.status =
      some c1_record.status := by
  refine ⟨rfl, rfl, rfl, ?_, ?_⟩ <;> decide

/-- Claim C1 (amended): once the stored status is cancelled, a status-sink
call with any non-cancelled status (in particular any non-terminal phase
name) leaves the record unchanged; completed and failed enjoy no such
protection. -/
theorem c1_amended (r : JobRecord) (new_status : Status)
    (h : r.status = Status.cancelled) (hn : new_status ≠ Status.cancelled) :
    update_status (some r) new_status = some r := by
  unfold update_status
  by_cases hc : r.cancelled
  · rw [if_pos ⟨hn, by simp [hc]⟩]
    rcases r with ⟨st, cfl, e, od, fl, pc, fu, ou, oc, sa⟩
    simp only at h
    simp [h]
  · rw [if_neg ?_]
    · simp [h, hn]
    · simp [hc]

/-- Witness for the amended C1 at a concrete cancelled record. -/
theorem c1_amended_witness :
    update_status (some c1_cancelled_record) Status.downloading = some c1_cancelled_record :=
  c1_amended c1_cancelled_record Status.downloading rfl (by decide)

/-- Claim C2 (counterexample): in the two-iteration batch of the same URL
where the first occurrence fails at the download stage and the second
reaches the format stage with zero format successes, the second iteration
neither increments processed_count nor appends to failed_urls — the
membership guard at core/pipeline.py line 192 skips the append because the
URL is already listed from the first iteration. -/
theorem c2_counterexample :
    c2_st1.processed_count = 0 ∧
    c2_st1.failed_urls = ["u"] ∧
    c2_st2.processed_count = c2_st1.processed_count ∧
    c2_st2.failed_urls = c2_st1.failed_urls ∧
    ¬ (c2_st2.processed_count = c2_st1.processed_count + 1 ∨
        c2_st2.failed_urls = c2_st1.failed_urls ++ ["u"]) ∧
    (run_pipeline ["u", "u"] emptyConfig "out" c2_envs (fun _ => false)).processed_count = 0 ∧
    (run_pipeline ["u", "u"] emptyConfig "out" c2_envs (fun _ => false)).failed_urls = ["u"] := by
  refine ⟨?_, ?_, ?_, ?_, ?_, ?_, ?_⟩ <;> decide

/-- Claim C2 (amended): every iteration of the batch loop either
increments processed_count by exactly one and leaves failed_urls
untouched, or leaves processed_count untouched and ends with the URL
present in failed_urls (appended now, or already present from an earlier
failing occurrence of the same URL) — never both in one iteration. -/
theorem c2_amended (cfg : PipelineConfig) (output_dir : String) (env : UrlEnv)
    (current_url : String) (st : PipeState) :
    ((stepUrl cfg output_dir env current_url st).processed_count = st.processed_count + 1 ∧
      (stepUrl cfg output_dir env current_url st).failed_urls = st.failed_urls) ∨
    ((stepUrl cfg output_dir env current_url st).processed_count = st.processed_count ∧
      current_url ∈ (stepUrl cfg output_dir env current_url st).failed_urls ∧
      ((stepUrl cfg output_dir env current_url st).failed_urls = st.failed_urls ∨
        (stepUrl cfg output_dir env current_url st).failed_urls =
          st.failed_urls ++ [current_url])) := by
  unfold stepUrl
  rcases urlBodyE cfg output_dir env st.fs with r | b
  · refine Or.inr ?_
    unfold processOutcome
    by_cases hm : current_url ∈ st.failed_urls <;> simp [hm]
  · rcases b with ⟨bfs, bap, bout⟩
    rcases bout with _ | _ | ⟨succ, total⟩
    · exact Or.inr ⟨rfl, by simp [processOutcome], by simp [processOutcome]⟩
    · exact Or.inr ⟨rfl, by simp [processOutcome], by simp [processOutcome]⟩
    · unfold processOutcome
      by_cases hc : succ = total ∨ 0 < succ
      · exact Or.inl (by simp [hc])
      · refine Or.inr ?_
        by_cases hm : current_url ∈ st.failed_urls <;> simp [hc, hm]

/-- Claim C3 (code bug, evaluated): with no cancellation, an API key, and
a pipeline result whose failed_urls is non-empty (a one-URL batch whose
download failed), the worker sets the status to failed but then dies on
the uncaught AttributeError of interfaces/web/main.py line 172 — calling
.keys() on the failed_urls list inside the try-else block — so neither the
processed count, nor the failing URLs, nor the produced-files list is ever
recorded on the job record, contrary to the claim. -/
theorem c3_code_bug_eval :
    c3_env.pipelineOutcome = Except.ok { processed_count := 0, failed_urls := ["u"] } ∧
    (run_transcription_job_in_background c3_env
      (initialRecord ["u"] emptyConfig 0)).record.status = Status.failed ∧
    (run_transcription_job_in_background c3_env
      (initialRecord ["u"] emptyConfig 0)).record.processed_count = none ∧
    (run_transcription_job_in_background c3_env
      (initialRecord ["u"] emptyConfig 0)).record.failed_urls_field = none ∧
    (run_transcription_job_in_background c3_env
      (initialRecord ["u"] emptyConfig 0)).record.files = [] ∧
    (run_transcription_job_in_background c3_env
      (initialRecord ["u"] emptyConfig 0)).record.error = none ∧
    (run_transcription_job_in_background c3_env
      (initialRecord ["u"] emptyConfig 0)).exit =
        WorkerExit.raised "AttributeError: list object has no attribute keys" := by
  refine ⟨?_, ?_, ?_, ?_, ?_, ?_, ?_⟩ <;> decide

/-- Claim C4 (confirmed): when the shared cancelled flag reads true at the
worker's pre-start checkpoint or at its next flag read — which, on the
path that reaches it, is the pre-pipeline checkpoint, and on the
missing-API-key and makedirs-failure paths is the read inside the FAILED
status update — the worker leaves the job in status cancelled, never
completed or failed.  The flag is set-only, so its reads form a monotone
boolean sequence. -/
theorem c4_cancel_before_pipeline (env : WorkerEnv) (urls : List String)
    (config : PipelineConfig) (now : Nat)
    (hobs : env.flag 0 = true ∨ env.flag 1 = true)
    (_hmono : ∀ i j : Nat, i ≤ j → env.flag i = true → env.flag j = true) :
    (run_transcription_job_in_background env (initialRecord urls config now)).record.status =
      Status.cancelled := by
  cases h0 : env.flag 0
  · have h1 : env.flag 1 = true := by
      rcases hobs with h | h
      · rw [h0] at h; cases h
      · exact h
    cases hk : env.hasApiKey
    · simp [run_transcription_job_in_background, update_status, initialRecord, h0, h1, hk]
    · cases hm : env.mkdirError
      · simp [run_transcription_job_in_background, update_status, initialRecord, h0, h1, hk, hm]
      · simp [run_transcription_job_in_background, update_status, initialRecord, h0, h1, hk, hm]
  · simp [run_transcription_job_in_background, update_status, initialRecord, h0]

/-- Witness for C4: the missing-API-key path under a cancellation that was
requested before the worker started ends in status cancelled. -/
theorem c4_cancel_before_pipeline_witness :
    (run_transcription_job_in_background c4_env
      (initialRecord ["u"] emptyConfig 0)).record.status = Status.cancelled :=
  c4_cancel_before_pipeline c4_env ["u"] emptyConfig 0 (Or.inl rfl) (fun _ _ _ _ => rfl)

/-- Claim C5 (counterexample): the srt format generator raises while the
txt generator succeeded; the exception is absorbed by the per-format
handler of core/pipeline.py line 181 — not the URL boundary — and the URL
counts as processed and is absent from failed_urls, so an exception in a
collaborator call does not imply the URL is recorded failed. -/
theorem c5_counterexample :
    envTxtOkSrtExn.fmtResult 1 = FmtOutcome.exn "boom" ∧
    (run_pipeline ["u"] emptyConfig "out" (fun _ => envTxtOkSrtExn)
      (fun _ => false)).processed_count = 1 ∧
    (run_pipeline ["u"] emptyConfig "out" (fun _ => envTxtOkSrtExn)
      (fun _ => false)).failed_urls = [] := by
  refine ⟨?_, ?_, ?_⟩ <;> decide

/-- Claim C5 (amended): an exception that reaches the URL boundary (one
not absorbed by the filename-resolution or per-format inner handlers) is
caught there, the URL ends up in the failed_urls of the final result, and
the batch loop carries on over the remaining URLs with run_pipeline
returning normally — by construction every raise is routed to a handler
and none escapes the loop. -/
theorem c5_amended (cfg : PipelineConfig) (output_dir : String) (envs : Nat → UrlEnv)
    (pre : List String) (u : String) (post : List String) (st0 : PipeState) (r : UrlRaise)
    (h : urlBodyE cfg output_dir (envs pre.length)
        ((runUrls cfg output_dir envs pre 0 st0).fs) = Except.error r) :
    u ∈ (runUrls cfg output_dir envs (pre ++ u :: post) 0 st0).failed_urls := by
  rw [runUrls_append]
  simp only [Nat.zero_add, runUrls]
  apply runUrls_failed_mono
  unfold stepUrl
  rw [h]
  unfold processOutcome
  by_cases hm : u ∈ (runUrls cfg output_dir envs pre 0 st0).failed_urls <;> simp [hm]

/-- Witness for the amended C5: a batch of one URL whose download raises
ends with that URL in failed_urls. -/
theorem c5_amended_witness :
    "u" ∈ (runUrls emptyConfig "out" (fun _ => envDlExn) (([] : List String) ++ "u" :: [])
      0 (pipeInit (fun _ => false))).failed_urls :=
  c5_amended emptyConfig "out" (fun _ => envDlExn) [] "u" [] (pipeInit (fun _ => false))
    c5w_raise rfl

/-- Claim C7 (counterexample): the same URL failing at the download stage
in both of its two occurrences is appended unconditionally both times
(core/pipeline.py line 93 has no membership guard), so the returned
failed_urls contains the URL twice. -/
theorem c7_counterexample :
    (run_pipeline ["u", "u"] emptyConfig "out" (fun _ => envDlFail)
      (fun _ => false)).failed_urls = ["u", "u"] ∧
    List.count "u" (run_pipeline ["u", "u"] emptyConfig "out" (fun _ => envDlFail)
      (fun _ => false)).failed_urls = 2 := by
  refine ⟨?_, ?_⟩ <;> decide

/-- Claim C7 (amended): for a URL already listed in failed_urls, an
iteration appends a second copy exactly when the URL fails at the download
or transcription stage; the zero-format-success path and the URL-boundary
exception handler are guarded by a membership test and add nothing. -/
theorem c7_amended (cfg : PipelineConfig) (output_dir : String) (env : UrlEnv)
    (current_url : String) (st : PipeState) (h : current_url ∈ st.failed_urls) :
    (stepUrl cfg output_dir env current_url st).failed_urls =
      (if bodyIsDownloadFailed (urlBodyE cfg output_dir env st.fs) = true ∨
          bodyIsTranscribeFailed (urlBodyE cfg output_dir env st.fs) = true
        then st.failed_urls ++ [current_url] else st.failed_urls) := by
  unfold stepUrl
  rcases hb : urlBodyE cfg output_dir env st.fs with r | b
  · simp [processOutcome, bodyIsDownloadFailed, bodyIsTranscribeFailed, h]
  · rcases b with ⟨bfs, bap, bout⟩
    rcases bout with _ | _ | ⟨succ, total⟩
    · simp [processOutcome, bodyIsDownloadFailed, bodyIsTranscribeFailed]
    · simp [processOutcome, bodyIsDownloadFailed, bodyIsTranscribeFailed]
    · unfold processOutcome
      by_cases hc : succ = total ∨ 0 < succ <;>
        simp [hc, h, bodyIsDownloadFailed, bodyIsTranscribeFailed]

/-- Witness for the amended C7: a URL already listed, failing again at the
download stage, is appended a second time. -/
theorem c7_amended_witness :
    (stepUrl emptyConfig "out" envDlFail "u" c7w_st).failed_urls =
      (if bodyIsDownloadFailed (urlBodyE emptyConfig "out" envDlFail c7w_st.fs) = true ∨
          bodyIsTranscribeFailed (urlBodyE emptyConfig "out" envDlFail c7w_st.fs) = true
        then c7w_st.failed_urls ++ ["u"] else c7w_st.failed_urls) :=
  c7_amended emptyConfig "out" envDlFail "u" c7w_st (by decide)

/-- The cleanup block evaluated at the audio path, given the file exists
when cleanup starts: kept when keep_audio, removed when os.remove
succeeds, left in place when os.remove raises OSError. -/
theorem cleanupStep_at_audio (cfg : PipelineConfig) (env : UrlEnv) (p : String)
    (fs : String → Bool) (hp : p ≠ "") (hfs : fs p = true) :
    cleanupStep cfg env (some p) fs p =
      (if cfg.keep_audio.getD false = true then true
        else if env.removeOk = true then false else true) := by
  by_cases hk : cfg.keep_audio.getD false = true
  · simp [cleanupStep, hk, hfs]
  · replace hk : cfg.keep_audio.getD false = false := by
      revert hk; cases cfg.keep_audio.getD false <;> simp
    by_cases hr : env.removeOk = true
    · simp [cleanupStep, hk, hr, hp, hfs, fsSet]
    · replace hr : env.removeOk = false := by
        revert hr; cases env.removeOk <;> simp
      simp [cleanupStep, hk, hr, hp, hfs]

/-- Claim C9 (confirmed): when the download produced an (non-empty-path)
audio asset, the cleanup of the iteration always runs — whatever the later
stages did, including raising — and afterwards the asset exists iff
keep_audio was requested or os.remove failed with an OS error; in
particular with keep_audio off and a successful remove it is gone, and
with keep_audio on it remains. -/
theorem c9_cleanup (cfg : PipelineConfig) (output_dir : String) (env : UrlEnv)
    (current_url : String) (st : PipeState) (p : String)
    (hd : env.download = Call.ok p) (hp : p ≠ "") :
    (stepUrl cfg output_dir env current_url st).fs p =
      (if cfg.keep_audio.getD false = true then true
        else if env.removeOk = true then false else true) := by
  have hfs1 : fsSet st.fs p true p = true := by simp [fsSet]
  cases ht : env.transcribe with
  | exn m =>
    unfold stepUrl
    simp only [urlBodyE, hd, ht, processOutcome]
    exact cleanupStep_at_audio cfg env p _ hp hfs1
  | failure =>
    unfold stepUrl
    simp only [urlBodyE, hd, ht, processOutcome]
    exact cleanupStep_at_audio cfg env p _ hp hfs1
  | ok t =>
    unfold stepUrl
    simp only [urlBodyE, hd, ht, processOutcome]
    by_cases hc :
        (formatLoop env.fmtResult
          (os_path_join output_dir
            (match env.extractBase with
              | ExtractOutcome.ok b => b
              | ExtractOutcome.exn _ => "transcript"))
          (cfg.formats.getD ["txt", "srt"]) 0 (0, fsSet st.fs p true)).1 =
          (cfg.formats.getD ["txt", "srt"]).length ∨
        0 < (formatLoop env.fmtResult
          (os_path_join output_dir
            (match env.extractBase with
              | ExtractOutcome.ok b => b
              | ExtractOutcome.exn _ => "transcript"))
          (cfg.formats.getD ["txt", "srt"]) 0 (0, fsSet st.fs p true)).1 <;>
      simp only [hc, if_true, if_false] <;>
      exact cleanupStep_at_audio cfg env p _ hp
        (formatLoop_preserves_true env.fmtResult _ _ 0 (0, fsSet st.fs p true) p hfs1)

/-- Witness for C9: keep_audio off and os.remove succeeding leaves the
audio file absent after the iteration. -/
theorem c9_cleanup_witness :
    (stepUrl emptyConfig "out" envFmtAllFail "u" (pipeInit (fun _ => false))).fs "a.mp3" =
      (if emptyConfig.keep_audio.getD false = true then true
        else if envFmtAllFail.removeOk = true then false else true) :=
  c9_cleanup emptyConfig "out" envFmtAllFail "u" (pipeInit (fun _ => false)) "a.mp3"
    rfl (by decide)

/-- Claim C6 (counterexample): a cancelled record is terminal, yet the
result endpoint answers it with the still-in-progress error instead of the
result data — the endpoint accepts only completed and failed. -/
theorem c6_counterexample :
    c6_record.status = Status.cancelled ∧
    Status.isTerminal c6_record.status = true ∧
    get_job_result_endpoint "j1" (some c6_record) =
      Except.error (HttpError.badRequest "Job is still in progress (status: cancelled).") := by
  refine ⟨?_, ?_, ?_⟩ <;> decide

/-- Claim C6 (amended): the result endpoint returns the stored result data
exactly for records in status completed or failed; every other status —
the non-terminal ones and also the terminal cancelled — receives the
explicit still-in-progress error, and an unknown id a not-found error. -/
theorem c6_amended (job_id : String) (r : JobRecord) :
    ((r.status = Status.completed ∨ r.status = Status.failed) →
      get_job_result_endpoint job_id (some r) =
        Except.ok
          { job_id := job_id
            status := r.status
            error := r.error
            output_dir := r.output_dir
            files := r.files
            processed_count := r.processed_count
            failed_urls := r.failed_urls_field.getD [] }) ∧
    (r.status ≠ Status.completed → r.status ≠ Status.failed →
      get_job_result_endpoint job_id (some r) =
        Except.error (HttpError.badRequest
          ("Job is still in progress (status: " ++ r.status.pyName ++ ")."))) ∧
    get_job_result_endpoint job_id none = Except.error (HttpError.notFound "Job not found") := by
  refine ⟨?_, ?_, rfl⟩
  · intro h
    rcases h with h | h <;> simp [get_job_result_endpoint, h]
  · intro h1 h2
    simp [get_job_result_endpoint, h1, h2]

/-- Witness for the amended C6 at a completed record with data. -/
theorem c6_amended_witness :
    get_job_result_endpoint "j1" (some c6w_record) =
      Except.ok
        { job_id := "j1"
          status := c6w_record.status
          error := c6w_record.error
          output_dir := c6w_record.output_dir
          files := c6w_record.files
          processed_count := c6w_record.processed_count
          failed_urls := c6w_record.failed_urls_field.getD [] } :=
  (c6_amended "j1" c6w_record).1 (Or.inl rfl)

/-- Claim C8 (confirmed): for a stored record with a non-empty retained
request — non-empty URL list and non-empty stored config dict, the
invariant of every record ever created by start_job, since submission
rejects empty URL lists and always stores the full dumped configuration —
retry answers not-found for an unknown id, rejects a non-failed record,
and on a failed record starts a new job under a fresh id: the new id
differs from the old, the new record carries exactly the original URLs
and configuration of the failed record, and the old record is left
untouched in the store. -/
theorem c8_retry (jobs : JobStore) (job_id fresh_id : String) (now : Nat) (r : JobRecord)
    (hsome : jobs job_id = some r) (hfresh : jobs fresh_id = none)
    (hurls : r.original_urls ≠ []) (hcfg : r.original_config ≠ emptyConfig) :
    (retry_job_endpoint (fun _ => none) job_id fresh_id now =
      Except.error (HttpError.notFound "Original job not found")) ∧
    (r.status ≠ Status.failed →
      retry_job_endpoint jobs job_id fresh_id now =
        Except.error (HttpError.badRequest "Only failed jobs can be retried.")) ∧
    (r.status = Status.failed →
      retry_job_endpoint jobs job_id fresh_id now =
        Except.ok (start_job r.original_urls r.original_config jobs fresh_id now) ∧
      (start_job r.original_urls r.original_config jobs fresh_id now).2 = fresh_id ∧
      fresh_id ≠ job_id ∧
      (start_job r.original_urls r.original_config jobs fresh_id now).1 job_id = some r ∧
      (start_job r.original_urls r.original_config jobs fresh_id now).1 fresh_id =
        some (initialRecord r.original_urls r.original_config now)) := by
  have hne : fresh_id ≠ job_id := by
    intro he
    rw [he, hsome] at hfresh
    cases hfresh
  refine ⟨by simp [retry_job_endpoint], ?_, ?_⟩
  · intro hst
    simp [retry_job_endpoint, hsome, hst]
  · intro hst
    have hemp : r.original_urls.isEmpty = false := by
      rcases hu : r.original_urls with _ | ⟨a, l⟩
      · exact absurd hu hurls
      · rfl
    have hfalsy : r.original_config.isFalsy = false := by
      simp [PipelineConfig.isFalsy, hcfg]
    have hne2 : ¬ (job_id = fresh_id) := fun he => hne he.symm
    refine ⟨?_, rfl, hne, ?_, ?_⟩
    · simp [retry_job_endpoint, hsome, hst, hemp, hfalsy]
    · simp [start_job, hne2, hsome]
    · simp [start_job]

/-- Witness for C8 on a concrete one-record store holding a failed job. -/
theorem c8_retry_witness :
    retry_job_endpoint c8_store "a" "b" 7 =
      Except.ok (start_job c8_failedRec.original_urls c8_failedRec.original_config
        c8_store "b" 7) ∧
    (start_job c8_failedRec.original_urls c8_failedRec.original_config c8_store "b" 7).2 = "b" ∧
    ("b" : String) ≠ "a" ∧
    (start_job c8_failedRec.original_urls c8_failedRec.original_config c8_store "b" 7).1 "a" =
      some c8_failedRec ∧
    (start_job c8_failedRec.original_urls c8_failedRec.original_config c8_store "b" 7).1 "b" =
      some (initialRecord c8_failedRec.original_urls c8_failedRec.original_config 7) :=
  (c8_retry c8_store "a" "b" 7 c8_failedRec rfl rfl (by decide) (by decide)).2.2 rfl

/-- Claim C10 (confirmed): for a job whose record exists and has a
(non-falsy) recorded output directory, a requested filename containing a
dotdot sequence or starting with a slash is answered with the
invalid-filename error and nothing is served; a filename passing the check
is served exactly when the joined path inside the output directory is a
regular file, and otherwise gets the not-found error; the served path is
the output directory, a slash, and the filename. -/
theorem c10_download (jobs : JobStore) (isfile : String → Bool) (job_id filename : String)
    (r : JobRecord) (d : String)
    (hsome : jobs job_id = some r) (hdir : r.output_dir = some d) (hne : d ≠ "") :
    ((strHasSub ".." filename = true ∨ strStarts filename "/" = true) →
      download_file_endpoint jobs isfile job_id filename =
        Except.error (HttpError.badRequest "Invalid filename.")) ∧
    (strHasSub ".." filename = false → strStarts filename "/" = false →
      (isfile (os_path_join d filename) = true →
        download_file_endpoint jobs isfile job_id filename =
          Except.ok (os_path_join d filename)) ∧
      (isfile (os_path_join d filename) = false →
        download_file_endpoint jobs isfile job_id filename =
          Except.error (HttpError.notFound "File not found.")) ∧
      (strEnds d "/" = false → os_path_join d filename = d ++ "/" ++ filename)) := by
  have hfalsy : ¬ (r.output_dir = none ∨ r.output_dir = some "") := by
    rw [hdir]
    rintro (h | h)
    · cases h
    · exact hne (by injection h)
  refine ⟨?_, ?_⟩
  · intro hbad
    rcases hbad with h | h <;>
      simp [download_file_endpoint, hsome, hfalsy, hdir, hne, h]
  · intro h1 h2
    refine ⟨?_, ?_, ?_⟩
    · intro hfile
      simp [download_file_endpoint, hsome, hfalsy, hdir, hne, h1, h2, hfile]
    · intro hfile
      simp [download_file_endpoint, hsome, hfalsy, hdir, hne, h1, h2, hfile]
    · intro hslash
      simp [os_path_join, h2, hne, hslash]

/-- Witness for C10: the listed file of the concrete job is served at the
joined path under the recorded output directory. -/
theorem c10_download_witness :
    (c10_isfile (os_path_join "outdir" "f.txt") = true →
      download_file_endpoint c10_store c10_isfile "j" "f.txt" =
        Except.ok (os_path_join "outdir" "f.txt")) ∧
    (c10_isfile (os_path_join "outdir" "f.txt") = false →
      download_file_endpoint c10_store c10_isfile "j" "f.txt" =
        Except.error (HttpError.notFound "File not found.")) ∧
    (strEnds "outdir" "/" = false → os_path_join "outdir" "f.txt" = "outdir" ++ "/" ++ "f.txt") :=
  (c10_download c10_store c10_isfile "j" "f.txt" c10_rec "outdir" rfl rfl (by decide)).2
    (by decide) (by decide)

end Transcriptor
